import Mathlib

/-!
Verification of the Quick-Show backend handlers against their
natural-language specification.  The definitions below are a shallow
embedding of the JavaScript handlers in src/server/inngest/index.js and
src/server/controllers/User.controller.js: collections stored in the
external document database become Lean lists of documents, JS objects
used as string maps become association lists in key insertion order, and
code that can throw becomes an Except value.
-/

namespace QuickShow

/-- A movie document; only its title is read by the handlers modelled here. -/
structure Movie where
  title : String
  deriving DecidableEq

/-- A show document.  occupiedSeats is the JS object mapping each seat
label to the id of the user holding the seat, modelled as an association
list in key insertion order.  movie is the populated movie reference,
none when the referenced movie document is missing. -/
structure ShowDoc where
  id : String
  movie : Option Movie
  showTime : Nat
  occupiedSeats : List (String × String)
  deriving DecidableEq

/-- A booking document.  The source field named show (a Lean keyword) is
rendered showId: it references the show document by id. -/
structure Booking where
  id : String
  showId : String
  userId : String
  bookedSeats : List String
  isPaid : Bool
  amount : Nat
  deriving DecidableEq

/-- The slice of the database the booking-expiry workflow reads and
writes: the shows collection and the bookings collection. -/
structure DB where
  shows : List ShowDoc
  bookings : List Booking
  deriving DecidableEq

/-- booking.bookedSeats.forEach deleting show.occupiedSeats[seat]: the
seat keys listed in the booking are deleted from the object one by one;
deleting an absent key is a no-op of the JS delete operator. -/
def removeSeats (m : List (String × String)) (seats : List String) : List (String × String) :=
  seats.foldl (fun acc seat => acc.filter (fun kv => kv.1 != seat)) m

/-- show.save persists the modified show document over the stored
document carrying the same id. -/
def saveShow (shows : List ShowDoc) (sh : ShowDoc) : List ShowDoc :=
  shows.map (fun s => if s.id == sh.id then sh else s)

/-- Booking.findByIdAndDelete: removes the document with the given id
from the collection; a no-op when no such document exists. -/
def deleteBookingById (bookings : List Booking) (bid : String) : List Booking :=
  bookings.filter (fun b => b.id != bid)

/-- The TypeError raised by reading booking.isPaid after Booking.findById
returned null. -/
def errNullBooking : String := "TypeError: cannot read isPaid of null"

/-- The TypeError raised by reading show.occupiedSeats after Show.findById
returned null. -/
def errNullShow : String := "TypeError: cannot read occupiedSeats of null"

/-- The check-payment-status step of releaseSeatsAndDeleteBooking: load
the booking by id; when booking.isPaid is false, load the referenced
show, delete every booked seat label from show.occupiedSeats, save the
show, then delete the booking.  Reading .isPaid of a missing booking and
.occupiedSeats of a missing show throw, modelled as Except.error. -/
def checkPaymentStep (db : DB) (bookingId : String) : Except String DB :=
  match db.bookings.find? (fun b => b.id == bookingId) with
  | none => Except.error errNullBooking
  | some booking =>
    if booking.isPaid then Except.ok db
    else
      match db.shows.find? (fun s => s.id == booking.showId) with
      | none => Except.error errNullShow
      | some sh =>
        Except.ok
          { shows := saveShow db.shows
              { sh with occupiedSeats := removeSeats sh.occupiedSeats booking.bookedSeats }
            bookings := deleteBookingById db.bookings booking.id }

/-- Database state after one run of the step.  A thrown error leaves the
database as it was: both throw points of the step precede every write. -/
def stepState (db : DB) (bookingId : String) : DB :=
  match checkPaymentStep db bookingId with
  | Except.ok db' => db'
  | Except.error _ => db

/-- Database state after a partial run of the step that was interrupted
between show.save and Booking.findByIdAndDelete: the show is already
persisted but the booking is still stored. -/
def partialStepState (db : DB) (bookingId : String) : DB :=
  match db.bookings.find? (fun b => b.id == bookingId) with
  | none => db
  | some booking =>
    if booking.isPaid then db
    else
      match db.shows.find? (fun s => s.id == booking.showId) with
      | none => db
      | some sh =>
        { shows := saveShow db.shows
            { sh with occupiedSeats := removeSeats sh.occupiedSeats booking.bookedSeats }
          bookings := db.bookings }

/-- A user document as stored by the user sync handlers: id, email,
display name, avatar image url. -/
structure UserRec where
  id : String
  email : String
  name : String
  image : String
  deriving DecidableEq

/-- The payload of a clerk user lifecycle event: id, first_name,
last_name, email_addresses (each entry reduced to its email_address
string), image_url. -/
structure ClerkEvent where
  id : String
  first_name : String
  last_name : String
  email_addresses : List String
  image_url : String
  deriving DecidableEq

/-- The field projection shared by the sync handlers, given the first
email address: the record built from the event payload. -/
def clerkUserData (ev : ClerkEvent) (email : String) : UserRec :=
  { id := ev.id
    email := email
    name := ev.first_name ++ " " ++ ev.last_name
    image := ev.image_url }

/-- The update-user-from-clerk handler: reading email_addresses[0] of an
empty list throws; otherwise User.findByIdAndUpdate with Mongoose
default options updates the document with the matching id in place and
does nothing at all (no insert, no error) when the id matches no
document. -/
def syncUserUpdation (users : List UserRec) (ev : ClerkEvent) : Except String (List UserRec) :=
  match ev.email_addresses with
  | [] => Except.error "TypeError: cannot read email_address of undefined"
  | email :: _ =>
    Except.ok (users.map (fun u => if u.id == ev.id then clerkUserData ev email else u))

/-- The body of the updateFavourite controller acting on the favorites
list held in the clerk user metadata: none models a metadata object with
no favorites field, which the controller initialises to the empty list;
membership is toggled with includes, push and filter. -/
def toggleFavorite (favorites : Option (List String)) (movieId : String) : List String :=
  let favs := favorites.getD []
  if movieId ∈ favs then favs.filter (fun item => item != movieId)
  else favs ++ [movieId]

/-- The JSON envelope returned by the HTTP controllers. -/
structure ApiResponse where
  success : Bool
  message : String
  deriving DecidableEq

/-- The updateFavourite controller: the identity-provider read and write
are modelled as succeeding, so the stored list becomes the toggled list
and the response is the success envelope of the happy path. -/
def updateFavourite (favorites : Option (List String)) (movieId : String) :
    List String × ApiResponse :=
  (toggleFavorite favorites movieId,
   { success := true, message := "Favourite movies updated successfully" })

/-- One reminder task built in the prepare-reminder-tasks step. -/
structure ReminderTask where
  userEmail : String
  userName : String
  movieTitle : String
  showTime : Nat
  deriving DecidableEq

/-- Spreading a new Set over Object.values of the occupied-seat object:
deduplication keeping the first occurrence of each element, in order. -/
def dedupFirst (l : List String) : List String :=
  l.foldl (fun acc x => if x ∈ acc then acc else acc ++ [x]) []

/-- The per-show body of the prepare-reminder-tasks loop: skip the show
when its populated movie is missing; collect the distinct user ids
holding occupied seats; skip the show when there are none; resolve the
ids against the users collection (User.find with an id-in filter) and
push one task per resolved user. -/
def tasksForShow (users : List UserRec) (sh : ShowDoc) : List ReminderTask :=
  match sh.movie with
  | none => []
  | some mv =>
    let userIds := dedupFirst (sh.occupiedSeats.map (fun kv => kv.2))
    if userIds.length = 0 then []
    else
      (users.filter (fun u => decide (u.id ∈ userIds))).map
        (fun u => { userEmail := u.email, userName := u.name
                    movieTitle := mv.title, showTime := sh.showTime })

/-- The loop of the prepare step over the shows returned by the query,
appending the tasks of each show in order. -/
def buildTasks (users : List UserRec) : List ShowDoc → List ReminderTask
  | [] => []
  | sh :: rest => tasksForShow users sh ++ buildTasks users rest

/-- windowEnd of the reminder sweep: now + 8 hours, in milliseconds. -/
def reminderWindowEnd (now : Nat) : Nat := now + 8 * 60 * 60 * 1000

/-- windowStart of the reminder sweep: windowEnd - 10 minutes. -/
def reminderWindowStart (now : Nat) : Nat := reminderWindowEnd now - 10 * 60 * 1000

/-- The prepare-reminder-tasks step: Show.find restricted to shows whose
showTime lies in the closed window, then the task-building loop. -/
def prepareReminderTasks (shows : List ShowDoc) (users : List UserRec) (now : Nat) :
    List ReminderTask :=
  buildTasks users
    (shows.filter (fun s =>
      decide (reminderWindowStart now ≤ s.showTime ∧ s.showTime ≤ reminderWindowEnd now)))

/-- The summary object returned by the reminder sweep.  The zero-task
short circuit returns an object with no failed key, hence failed is an
Option. -/
structure ReminderSummary where
  sent : Nat
  failed : Option Nat
  message : String
  deriving DecidableEq

/-- The observable outcome of one sweep run: the returned summary and
the list of tasks handed to the send-all-reminders step (empty when that
step is skipped).  Promise.allSettled maps every task to a send attempt
and each attempt settles independently. -/
structure SweepResult where
  summary : ReminderSummary
  attempted : List ReminderTask
  deriving DecidableEq

/-- The sendShowReminders handler: build the tasks, short-circuit with
sent 0 and no failed count when there are none, otherwise attempt every
send, count the fulfilled ones as sent and the rest as failed.  outcomes
gives the settled status of the send of the task at each index:
true for fulfilled, false for rejected. -/
def sendShowReminders (shows : List ShowDoc) (users : List UserRec) (now : Nat)
    (outcomes : Nat → Bool) : SweepResult :=
  let reminderTasks := prepareReminderTasks shows users now
  if reminderTasks.length = 0 then
    { summary := { sent := 0, failed := none, message := "No reminders to send" }
      attempted := [] }
  else
    let results := (List.range reminderTasks.length).map outcomes
    let sent := (results.filter (fun r => r)).length
    let failed := results.length - sent
    { summary :=
        { sent := sent
          failed := some failed
          message := "Sent " ++ toString sent ++ " reminders, " ++ toString failed ++ " failed." }
      attempted := reminderTasks }

/-- A concrete database holding one show and no bookings, used to
exercise the step on a booking id that matches nothing. -/
def dbNoBooking : DB :=
  { shows := [⟨"s1", some ⟨"Dune"⟩, 50, [("A1", "u1")]⟩], bookings := [] }

/-- A concrete unpaid booking holding two seats of show s1. -/
def bkUnpaid : Booking := ⟨"b1", "s1", "u1", ["A1", "A2"], false, 100⟩

/-- A concrete paid booking of show s1. -/
def bkPaid : Booking := ⟨"b2", "s1", "u1", ["A1"], true, 100⟩

/-- The show referenced by the concrete bookings above. -/
def shw1 : ShowDoc := ⟨"s1", some ⟨"Dune"⟩, 50, [("A1", "u1"), ("A2", "u1"), ("B1", "u2")]⟩

/-- Database holding shw1 and the unpaid booking. -/
def dbUnpaid : DB := { shows := [shw1], bookings := [bkUnpaid] }

/-- Database holding shw1 and the paid booking. -/
def dbPaid : DB := { shows := [shw1], bookings := [bkPaid] }

/-- A concrete show inside the reminder window of now = 0, with two
occupied seats held by two users. -/
def showR : ShowDoc :=
  ⟨"s1", some ⟨"Dune"⟩, reminderWindowEnd 0, [("A1", "u1"), ("A2", "u2")]⟩

/-- The two user records holding the seats of showR. -/
def usersR : List UserRec := [⟨"u1", "e1", "n1", "i1"⟩, ⟨"u2", "e2", "n2", "i2"⟩]

/-- A concrete stored user record. -/
def userA : UserRec := ⟨"u1", "a@b.c", "Ann Lee", "img"⟩

/-- A concrete clerk update event whose id matches no stored record. -/
def evB : ClerkEvent := ⟨"u2", "Bo", "Li", ["bo@x.y"], "pic"⟩

/-! Helper lemmas about the embedded database primitives. -/

theorem removeSeats_eq_filter (seats : List String) (m : List (String × String)) :
    removeSeats m seats = m.filter (fun kv => decide (kv.1 ∉ seats)) := by
  induction seats generalizing m with
  | nil => simp [removeSeats]
  | cons s rest ih =>
    rw [removeSeats, List.foldl_cons]
    have h := ih (m.filter (fun kv => kv.1 != s))
    rw [removeSeats] at h
    rw [h, List.filter_filter]
    apply List.filter_congr
    intro kv _
    by_cases h1 : kv.1 = s <;> by_cases h2 : kv.1 ∈ rest <;>
      simp [h1, h2]

theorem removeSeats_idem (m : List (String × String)) (seats : List String) :
    removeSeats (removeSeats m seats) seats = removeSeats m seats := by
  rw [removeSeats_eq_filter, removeSeats_eq_filter, List.filter_filter]
  apply List.filter_congr
  intro kv _
  simp

theorem find?_deleteBookingById (bookings : List Booking) (x : String) :
    (deleteBookingById bookings x).find? (fun b => b.id == x) = none := by
  apply List.find?_eq_none.mpr
  intro b hb
  simp only [deleteBookingById, List.mem_filter, bne_iff_ne, ne_eq] at hb
  simp [hb.2]

theorem find?_saveShow (shows : List ShowDoc) (x : String) (sh sh' : ShowDoc)
    (hfind : shows.find? (fun s => s.id == x) = some sh) (hid : sh'.id = sh.id) :
    (saveShow shows sh').find? (fun s => s.id == x) = some sh' := by
  induction shows with
  | nil => simp at hfind
  | cons a t ih =>
    by_cases h : (a.id == x) = true
    · rw [List.find?_cons_of_pos (p := fun s : ShowDoc => s.id == x) t h] at hfind
      have ha : a = sh := by injection hfind
      subst ha
      have hhead : (a.id == sh'.id) = true := by simp [hid]
      have hpred : (sh'.id == x) = true := by
        rw [hid]
        exact h
      simp only [saveShow, List.map_cons]
      rw [if_pos hhead]
      rw [List.find?_cons_of_pos (p := fun s : ShowDoc => s.id == x) _ hpred]
    · rw [List.find?_cons_of_neg (p := fun s : ShowDoc => s.id == x) t h] at hfind
      have hx := List.find?_some hfind
      simp only [beq_iff_eq] at hx
      have hane : ¬ (a.id == sh'.id) = true := by
        rw [hid, hx]
        exact h
      simp only [saveShow, List.map_cons]
      rw [if_neg hane]
      rw [List.find?_cons_of_neg (p := fun s : ShowDoc => s.id == x) _ h]
      exact ih hfind

theorem mem_saveShow_of_ne (shows : List ShowDoc) (sh' s : ShowDoc)
    (hs : s ∈ shows) (hne : s.id ≠ sh'.id) : s ∈ saveShow shows sh' := by
  refine List.mem_map.mpr ⟨s, hs, ?_⟩
  simp [hne]

theorem saveShow_idem (shows : List ShowDoc) (sh' : ShowDoc) :
    saveShow (saveShow shows sh') sh' = saveShow shows sh' := by
  simp only [saveShow, List.map_map]
  apply List.map_congr_left
  intro s _
  by_cases h : (s.id == sh'.id) = true <;> simp [Function.comp, h]

/-! Claim theorems for the booking-expiry workflow. -/

/-- C1 (amended): running the check-payment step with a bookingId that
refers to no existing booking leaves every show and booking unchanged,
but it does not complete successfully: reading isPaid of the null
booking throws. -/
theorem C1_missing_booking_errors_state_unchanged (db : DB) (bid : String)
    (hb : db.bookings.find? (fun b => b.id == bid) = none) :
    checkPaymentStep db bid = Except.error errNullBooking ∧ stepState db bid = db := by
  have h1 : checkPaymentStep db bid = Except.error errNullBooking := by
    simp [checkPaymentStep, hb]
  exact ⟨h1, by simp [stepState, h1]⟩

/-- C1 witness: the amended theorem applied to a concrete database with
one show and no bookings. -/
theorem C1_missing_booking_witness :
    checkPaymentStep dbNoBooking "b1" = Except.error errNullBooking ∧
    stepState dbNoBooking "b1" = dbNoBooking :=
  C1_missing_booking_errors_state_unchanged dbNoBooking "b1" rfl

/-- C1 counterexample to the claim as stated: on a concrete database in
which no booking has id b1, the check-payment step does not complete
successfully but throws the null-booking TypeError. -/
theorem C1_missing_booking_counterexample :
    dbNoBooking.bookings.find? (fun b => b.id == "b1") = none ∧
    checkPaymentStep dbNoBooking "b1" = Except.error errNullBooking :=
  ⟨rfl, rfl⟩

/-- C4: when the stored booking is paid, the check-payment step returns
the database unchanged: no show and no booking is touched and no write
is issued. -/
theorem C4_paid_booking_step_no_write (db : DB) (bid : String) (b : Booking)
    (hb : db.bookings.find? (fun x => x.id == bid) = some b)
    (hpaid : b.isPaid = true) :
    checkPaymentStep db bid = Except.ok db := by
  simp [checkPaymentStep, hb, hpaid]

/-- C4 witness: the theorem applied to a concrete database holding a
paid booking. -/
theorem C4_paid_booking_witness : checkPaymentStep dbPaid "b2" = Except.ok dbPaid :=
  C4_paid_booking_step_no_write dbPaid "b2" bkPaid rfl rfl

/-- C3: when the stored booking is unpaid and its show exists, the step
succeeds; in the resulting database the show keeps exactly the occupied
seat entries whose label is not in the booked seat set, the modified
show is persisted, every other show is untouched, and the booking is
gone. -/
theorem C3_unpaid_booking_releases_exact_seats (db : DB) (bid : String)
    (b : Booking) (sh : ShowDoc)
    (hb : db.bookings.find? (fun x => x.id == bid) = some b)
    (hpaid : b.isPaid = false)
    (hs : db.shows.find? (fun s => s.id == b.showId) = some sh) :
    checkPaymentStep db bid = Except.ok (stepState db bid) ∧
    (stepState db bid).shows.find? (fun s => s.id == b.showId) =
      some { sh with occupiedSeats :=
        sh.occupiedSeats.filter (fun kv => decide (kv.1 ∉ b.bookedSeats)) } ∧
    (stepState db bid).bookings.find? (fun x => x.id == bid) = none ∧
    ∀ s ∈ db.shows, s.id ≠ sh.id → s ∈ (stepState db bid).shows := by
  have hbid : b.id = bid := by
    have := List.find?_some hb
    simpa using this
  have h1 : checkPaymentStep db bid = Except.ok
      { shows := saveShow db.shows
          { sh with occupiedSeats := removeSeats sh.occupiedSeats b.bookedSeats }
        bookings := deleteBookingById db.bookings b.id } := by
    simp [checkPaymentStep, hb, hpaid, hs]
  have h2 : stepState db bid =
      { shows := saveShow db.shows
          { sh with occupiedSeats := removeSeats sh.occupiedSeats b.bookedSeats }
        bookings := deleteBookingById db.bookings b.id } := by
    simp [stepState, h1]
  refine ⟨?_, ?_, ?_, ?_⟩
  · rw [h1, h2]
  · rw [h2, ← removeSeats_eq_filter]
    exact find?_saveShow db.shows b.showId sh
      { sh with occupiedSeats := removeSeats sh.occupiedSeats b.bookedSeats } hs rfl
  · rw [h2]
    rw [← hbid]
    exact find?_deleteBookingById db.bookings b.id
  · intro s hsm hne
    rw [h2]
    exact mem_saveShow_of_ne db.shows _ s hsm hne

/-- C3 witness: the theorem applied to a concrete database with an
unpaid two-seat booking whose show also holds a seat of another user. -/
theorem C3_unpaid_booking_witness :
    checkPaymentStep dbUnpaid "b1" = Except.ok (stepState dbUnpaid "b1") ∧
    (stepState dbUnpaid "b1").shows.find? (fun s => s.id == bkUnpaid.showId) =
      some { shw1 with occupiedSeats :=
        shw1.occupiedSeats.filter (fun kv => decide (kv.1 ∉ bkUnpaid.bookedSeats)) } ∧
    (stepState dbUnpaid "b1").bookings.find? (fun x => x.id == "b1") = none := by
  have h := C3_unpaid_booking_releases_exact_seats dbUnpaid "b1" bkUnpaid shw1 rfl rfl rfl
  exact ⟨h.1, h.2.1, h.2.2.1⟩

/-- C2: the check-payment step is idempotent on the stored shows and
bookings: a second run reproduces the state of a single run, and a run
started from the partial state in which the show was already saved but
the booking not yet deleted also ends in the state of a single full
run. -/
theorem C2_check_payment_step_idempotent (db : DB) (bid : String) :
    stepState (stepState db bid) bid = stepState db bid ∧
    stepState (partialStepState db bid) bid = stepState db bid := by
  cases hb : db.bookings.find? (fun x => x.id == bid) with
  | none =>
    have h1 : stepState db bid = db := by simp [stepState, checkPaymentStep, hb]
    have h3 : partialStepState db bid = db := by simp [partialStepState, hb]
    constructor
    · rw [h1]
      exact h1
    · rw [h3]
  | some b =>
    by_cases hp : b.isPaid = true
    · have h1 : stepState db bid = db := by simp [stepState, checkPaymentStep, hb, hp]
      have h3 : partialStepState db bid = db := by simp [partialStepState, hb, hp]
      constructor
      · rw [h1]
        exact h1
      · rw [h3]
    · cases hs : db.shows.find? (fun s => s.id == b.showId) with
      | none =>
        have h1 : stepState db bid = db := by
          simp [stepState, checkPaymentStep, hb, hp, hs]
        have h3 : partialStepState db bid = db := by
          simp [partialStepState, hb, hp, hs]
        constructor
        · rw [h1]
          exact h1
        · rw [h3]
      | some sh =>
        have hbid : b.id = bid := by
          have := List.find?_some hb
          simpa using this
        have h1 : stepState db bid =
            { shows := saveShow db.shows
                { sh with occupiedSeats := removeSeats sh.occupiedSeats b.bookedSeats }
              bookings := deleteBookingById db.bookings b.id } := by
          simp [stepState, checkPaymentStep, hb, hp, hs]
        have h2 : stepState (stepState db bid) bid = stepState db bid := by
          rw [h1]
          have hgone : (deleteBookingById db.bookings b.id).find?
              (fun x => x.id == bid) = none := by
            rw [← hbid]
            exact find?_deleteBookingById db.bookings b.id
          simp [stepState, checkPaymentStep, hgone]
        have h4 : stepState (partialStepState db bid) bid = stepState db bid := by
          have h3 : partialStepState db bid =
              { shows := saveShow db.shows
                  { sh with occupiedSeats := removeSeats sh.occupiedSeats b.bookedSeats }
                bookings := db.bookings } := by
            simp [partialStepState, hb, hp, hs]
          rw [h3, h1]
          have hfindP : (saveShow db.shows
              { sh with occupiedSeats := removeSeats sh.occupiedSeats b.bookedSeats }).find?
              (fun s => s.id == b.showId) =
              some { sh with occupiedSeats := removeSeats sh.occupiedSeats b.bookedSeats } :=
            find?_saveShow db.shows b.showId sh _ hs rfl
          simp [stepState, checkPaymentStep, hb, hp, hfindP, removeSeats_idem, saveShow_idem]
        exact ⟨h2, h4⟩

/-! Claim theorems for the user sync handlers and the favorites
controller. -/

/-- C8: running the update-user sync handler on an event whose id
matches no stored user record succeeds without throwing and returns the
user collection unchanged: nothing is inserted and nothing is
modified. -/
theorem C8_update_absent_id_noop (users : List UserRec) (ev : ClerkEvent)
    (hemail : ev.email_addresses ≠ [])
    (habsent : ∀ u ∈ users, u.id ≠ ev.id) :
    syncUserUpdation users ev = Except.ok users := by
  rcases hE : ev.email_addresses with _ | ⟨e, es⟩
  · exact absurd hE hemail
  · simp only [syncUserUpdation, hE]
    congr 1
    have h : ∀ u ∈ users, (if u.id == ev.id then clerkUserData ev e else u) = id u := by
      intro u hu
      simp [habsent u hu]
    rw [List.map_congr_left h, List.map_id]

/-- C8 witness: the theorem applied to a concrete one-user collection
and an update event for a different id. -/
theorem C8_update_absent_id_witness :
    syncUserUpdation [userA] evB = Except.ok [userA] :=
  C8_update_absent_id_noop [userA] evB (by decide) (by decide)

/-- C7: a single favorite toggle adds an absent movieId exactly once and
removes a present one; after any single toggle the list holds at most
one occurrence of movieId; toggling twice from a duplicate-free list
restores the original membership. -/
theorem C7_toggle_favorite_membership (favorites : Option (List String)) (movieId : String) :
    (movieId ∉ favorites.getD [] →
      toggleFavorite favorites movieId = favorites.getD [] ++ [movieId] ∧
      (toggleFavorite favorites movieId).count movieId = 1) ∧
    (movieId ∈ favorites.getD [] → movieId ∉ toggleFavorite favorites movieId) ∧
    (toggleFavorite favorites movieId).count movieId ≤ 1 ∧
    ((favorites.getD []).Nodup →
      ∀ x, x ∈ toggleFavorite (some (toggleFavorite favorites movieId)) movieId ↔
        x ∈ favorites.getD []) := by
  refine ⟨?_, ?_, ?_, ?_⟩
  · intro h
    refine ⟨by simp [toggleFavorite, h], ?_⟩
    simp [toggleFavorite, h, List.count_append, List.count_eq_zero.mpr h]
  · intro h
    simp [toggleFavorite, h, List.mem_filter]
  · by_cases h : movieId ∈ favorites.getD []
    · have h0 : movieId ∉ toggleFavorite favorites movieId := by
        simp [toggleFavorite, h, List.mem_filter]
      simp [List.count_eq_zero.mpr h0]
    · simp [toggleFavorite, h, List.count_append, List.count_eq_zero.mpr h]
  · intro _ x
    by_cases h : movieId ∈ favorites.getD []
    · have h1 : toggleFavorite favorites movieId =
          (favorites.getD []).filter (fun item => item != movieId) := by
        simp [toggleFavorite, h]
      have h2 : movieId ∉ (favorites.getD []).filter (fun item => item != movieId) := by
        simp [List.mem_filter]
      rw [h1]
      simp only [toggleFavorite, Option.getD_some, if_neg h2, List.mem_append,
        List.mem_filter, List.mem_singleton, bne_iff_ne, ne_eq]
      by_cases hx : x = movieId <;> simp [hx, h]
    · have h1 : toggleFavorite favorites movieId = favorites.getD [] ++ [movieId] := by
        simp [toggleFavorite, h]
      have h2 : movieId ∈ favorites.getD [] ++ [movieId] := by simp
      rw [h1]
      simp only [toggleFavorite, Option.getD_some, if_pos h2, List.filter_append,
        List.mem_append, List.mem_filter, bne_iff_ne, ne_eq]
      by_cases hx : x = movieId <;> simp [hx, h]

/-- C7 witness: the theorem applied to concrete lists, covering the
absent-id branch, the present-id branch and the double toggle. -/
theorem C7_toggle_favorite_witness :
    toggleFavorite (some ["a"]) "b" = ["a"] ++ ["b"] ∧
    ("a" ∉ toggleFavorite (some ["a", "b"]) "a") ∧
    ("a" ∈ toggleFavorite (some (toggleFavorite (some ["a"]) "b")) "b" ↔ "a" ∈ ["a"]) :=
  ⟨((C7_toggle_favorite_membership (some ["a"]) "b").1 (by decide)).1,
   (C7_toggle_favorite_membership (some ["a", "b"]) "a").2.1 (by decide),
   ((C7_toggle_favorite_membership (some ["a"]) "b").2.2.2 (by decide)) "a"⟩

/-- C9: a toggle by a caller whose metadata has no favorites field
initialises the list, stores exactly the toggled movieId, and answers
with the success envelope. -/
theorem C9_first_toggle_initializes (movieId : String) :
    updateFavourite none movieId =
      ([movieId], { success := true, message := "Favourite movies updated successfully" }) := rfl

/-! Helper lemmas about the reminder sweep. -/

theorem mem_dedupFirst_aux (l : List String) :
    ∀ (acc : List String) (y : String),
      (y ∈ l.foldl (fun acc x => if x ∈ acc then acc else acc ++ [x]) acc) ↔
        y ∈ acc ∨ y ∈ l := by
  induction l with
  | nil =>
    intro acc y
    simp
  | cons a t ih =>
    intro acc y
    rw [List.foldl_cons, ih]
    by_cases h : a ∈ acc
    · simp only [if_pos h, List.mem_cons]
      constructor
      · rintro (h1 | h1)
        · exact Or.inl h1
        · exact Or.inr (Or.inr h1)
      · rintro (h1 | rfl | h1)
        · exact Or.inl h1
        · exact Or.inl h
        · exact Or.inr h1
    · simp only [if_neg h, List.mem_append, List.mem_singleton, List.mem_cons]
      tauto

theorem mem_dedupFirst (l : List String) (y : String) : y ∈ dedupFirst l ↔ y ∈ l := by
  have h := mem_dedupFirst_aux l [] y
  simpa [dedupFirst] using h

theorem dedupFirst_eq_nil_iff (l : List String) : dedupFirst l = [] ↔ l = [] := by
  constructor
  · intro h
    cases l with
    | nil => rfl
    | cons a t =>
      exfalso
      have ha : a ∈ dedupFirst (a :: t) := (mem_dedupFirst _ a).mpr (List.mem_cons_self a t)
      rw [h] at ha
      simp at ha
  · intro h
    subst h
    rfl

theorem mem_buildTasks (users : List UserRec) (l : List ShowDoc) (t : ReminderTask) :
    t ∈ buildTasks users l ↔ ∃ s, s ∈ l ∧ t ∈ tasksForShow users s := by
  induction l with
  | nil => simp [buildTasks]
  | cons sh rest ih =>
    simp only [buildTasks, List.mem_append, ih, List.mem_cons]
    constructor
    · rintro (h1 | ⟨s, hs, ht⟩)
      · exact ⟨sh, Or.inl rfl, h1⟩
      · exact ⟨s, Or.inr hs, ht⟩
    · rintro ⟨s, rfl | hs, ht⟩
      · exact Or.inl ht
      · exact Or.inr ⟨s, hs, ht⟩

theorem exists_user_of_mem_tasksForShow (users : List UserRec) (sh : ShowDoc)
    (t : ReminderTask) (h : t ∈ tasksForShow users sh) :
    ∃ u, u ∈ users ∧ t.userEmail = u.email ∧ t.userName = u.name := by
  cases hm : sh.movie with
  | none =>
    simp only [tasksForShow, hm] at h
    simp at h
  | some mv =>
    simp only [tasksForShow, hm] at h
    by_cases hlen : (dedupFirst (sh.occupiedSeats.map (fun kv => kv.2))).length = 0
    · rw [if_pos hlen] at h
      simp at h
    · rw [if_neg hlen] at h
      rcases List.mem_map.mp h with ⟨u, hu, rfl⟩
      exact ⟨u, (List.mem_filter.mp hu).1, rfl, rfl⟩

theorem tasksForShow_ghost (users : List UserRec) (sh : ShowDoc) (seatLabel x : String)
    (hx : ∀ u ∈ users, u.id ≠ x) :
    tasksForShow users { sh with occupiedSeats := (seatLabel, x) :: sh.occupiedSeats } =
      tasksForShow users sh := by
  cases hm : sh.movie with
  | none => simp [tasksForShow, hm]
  | some mv =>
    simp only [tasksForShow, hm, List.map_cons]
    by_cases hvals : sh.occupiedSeats.map (fun kv => kv.2) = []
    · simp [hvals, dedupFirst, List.filter_eq_nil_iff]
      intro u hu
      exact hx u hu
    · have hlenx : ¬ (dedupFirst (x :: sh.occupiedSeats.map (fun kv => kv.2))).length = 0 := by
        simp [List.length_eq_zero, dedupFirst_eq_nil_iff]
      have hlen : ¬ (dedupFirst (sh.occupiedSeats.map (fun kv => kv.2))).length = 0 := by
        simp [List.length_eq_zero, dedupFirst_eq_nil_iff, hvals]
      rw [if_neg hlenx, if_neg hlen]
      have hfeq : users.filter
          (fun u => decide (u.id ∈ dedupFirst (x :: sh.occupiedSeats.map (fun kv => kv.2)))) =
          users.filter (fun u => decide (u.id ∈ dedupFirst (sh.occupiedSeats.map (fun kv => kv.2)))) := by
        apply List.filter_congr
        intro u hu
        apply decide_eq_decide.mpr
        rw [mem_dedupFirst, mem_dedupFirst, List.mem_cons]
        simp [hx u hu]
      rw [hfeq]

theorem length_filter_map_self (l : List Nat) (f : Nat → Bool) :
    ((l.map f).filter (fun r => r)).length = (l.filter f).length := by
  induction l with
  | nil => rfl
  | cons a tl ih =>
    cases h : f a <;> simp [List.filter_cons, h, ih]

theorem length_filter_add_not (l : List Nat) (p : Nat → Bool) :
    (l.filter p).length + (l.filter (fun i => !(p i))).length = l.length := by
  induction l with
  | nil => rfl
  | cons a tl ih =>
    cases h : p a <;> simp [List.filter_cons, h] <;> omega

/-! Claim theorems for the reminder sweep. -/

/-- C5: when the prepare step yields N tasks, N at least 1, and exactly
one send settles rejected while every other settles fulfilled, the sweep
still hands all N tasks to the dispatch step and returns sent = N - 1
and failed = 1. -/
theorem C5_one_failed_send_summary (shows : List ShowDoc) (users : List UserRec)
    (now : Nat) (outcomes : Nat → Bool) (N : Nat)
    (hN : (prepareReminderTasks shows users now).length = N)
    (hpos : 1 ≤ N)
    (hone : ((List.range N).filter (fun i => !(outcomes i))).length = 1) :
    (sendShowReminders shows users now outcomes).attempted =
      prepareReminderTasks shows users now ∧
    (sendShowReminders shows users now outcomes).summary.sent = N - 1 ∧
    (sendShowReminders shows users now outcomes).summary.failed = some 1 := by
  have hne : ¬ (prepareReminderTasks shows users now).length = 0 := by omega
  have hsent : (((List.range (prepareReminderTasks shows users now).length).map
      outcomes).filter (fun r => r)).length = N - 1 := by
    rw [hN, length_filter_map_self]
    have h := length_filter_add_not (List.range N) outcomes
    rw [List.length_range] at h
    omega
  refine ⟨?_, ?_, ?_⟩
  · simp only [sendShowReminders]
    rw [if_neg hne]
  · simp only [sendShowReminders]
    rw [if_neg hne]
    exact hsent
  · simp only [sendShowReminders]
    rw [if_neg hne]
    show some (((List.range (prepareReminderTasks shows users now).length).map
        outcomes).length -
      (((List.range (prepareReminderTasks shows users now).length).map
        outcomes).filter (fun r => r)).length) = some 1
    rw [hsent, List.length_map, List.length_range, hN]
    congr 1
    omega

/-- C5 witness: the theorem applied to a concrete window with one show,
two seat holders, hence two tasks, of which the send at index 0 is
rejected. -/
theorem C5_one_failed_send_witness :
    (sendShowReminders [showR] usersR 0 (fun i => i != 0)).attempted =
      prepareReminderTasks [showR] usersR 0 ∧
    (sendShowReminders [showR] usersR 0 (fun i => i != 0)).summary.sent = 1 ∧
    (sendShowReminders [showR] usersR 0 (fun i => i != 0)).summary.failed = some 1 :=
  C5_one_failed_send_summary [showR] usersR 0 (fun i => i != 0) 2 rfl (by decide) rfl

/-- C6 (amended): when the prepare step yields no task the sweep answers
with sent 0, no failed count, the message that there is nothing to send,
and an empty dispatch; when at least one task is produced the summary
carries a failed count and every task reaches the dispatch step. -/
theorem C6_summary_counts (shows : List ShowDoc) (users : List UserRec)
    (now : Nat) (outcomes : Nat → Bool) :
    (prepareReminderTasks shows users now = [] →
      sendShowReminders shows users now outcomes =
        { summary := { sent := 0, failed := none, message := "No reminders to send" }
          attempted := [] }) ∧
    (prepareReminderTasks shows users now ≠ [] →
      (sendShowReminders shows users now outcomes).summary.failed.isSome = true ∧
      (sendShowReminders shows users now outcomes).attempted =
        prepareReminderTasks shows users now) := by
  constructor
  · intro h
    simp [sendShowReminders, h]
  · intro h
    have hne : ¬ (prepareReminderTasks shows users now).length = 0 := by
      simpa [List.length_eq_zero] using h
    constructor
    · simp only [sendShowReminders]
      rw [if_neg hne]
      rfl
    · simp only [sendShowReminders]
      rw [if_neg hne]

/-- C6 witness: the theorem applied to an empty window and to a window
holding one eligible show. -/
theorem C6_summary_counts_witness :
    (sendShowReminders [] usersR 0 (fun _ => true) =
      { summary := { sent := 0, failed := none, message := "No reminders to send" }
        attempted := [] }) ∧
    ((sendShowReminders [showR] usersR 0 (fun _ => true)).summary.failed.isSome = true ∧
     (sendShowReminders [showR] usersR 0 (fun _ => true)).attempted =
       prepareReminderTasks [showR] usersR 0) :=
  ⟨(C6_summary_counts [] usersR 0 (fun _ => true)).1 rfl,
   (C6_summary_counts [showR] usersR 0 (fun _ => true)).2 (by decide)⟩

/-- C6 counterexample to the claim as stated: on a run with zero tasks
the returned object has no failed count at all, so the summary does not
always contain both counts. -/
theorem C6_zero_tasks_counterexample :
    (sendShowReminders [] [] 0 (fun _ => true)).summary.failed = none := rfl

/-- C10: every reminder task of the prepare step carries the email and
name of a stored user record; a seat whose holder id matches no user
record changes nothing in the built tasks and raises no error; and a
show with a movie contributes exactly one task per user record resolved
from its distinct seat-holder ids. -/
theorem C10_unresolved_holder_no_task (shows : List ShowDoc) (users : List UserRec)
    (now : Nat) (x seatLabel : String) (sh : ShowDoc) (rest : List ShowDoc)
    (hx : ∀ u ∈ users, u.id ≠ x) :
    (∀ t ∈ prepareReminderTasks shows users now,
      ∃ u, u ∈ users ∧ t.userEmail = u.email ∧ t.userName = u.name) ∧
    prepareReminderTasks
        ({ sh with occupiedSeats := (seatLabel, x) :: sh.occupiedSeats } :: rest) users now =
      prepareReminderTasks (sh :: rest) users now ∧
    (∀ mv, sh.movie = some mv →
      (tasksForShow users sh).length =
        (users.filter (fun u =>
          decide (u.id ∈ dedupFirst (sh.occupiedSeats.map (fun kv => kv.2))))).length) := by
  refine ⟨?_, ?_, ?_⟩
  · intro t ht
    simp only [prepareReminderTasks] at ht
    rcases (mem_buildTasks users _ t).mp ht with ⟨s, _, hts⟩
    exact exists_user_of_mem_tasksForShow users s t hts
  · simp only [prepareReminderTasks, List.filter_cons]
    by_cases hw : decide (reminderWindowStart now ≤ sh.showTime ∧
        sh.showTime ≤ reminderWindowEnd now) = true
    · rw [if_pos hw, if_pos hw]
      simp only [buildTasks]
      rw [tasksForShow_ghost users sh seatLabel x hx]
    · rw [if_neg hw, if_neg hw]
  · intro mv hmv
    simp only [tasksForShow, hmv]
    by_cases hlen : (dedupFirst (sh.occupiedSeats.map (fun kv => kv.2))).length = 0
    · rw [if_pos hlen]
      have he : dedupFirst (sh.occupiedSeats.map (fun kv => kv.2)) = [] :=
        List.length_eq_zero.mp hlen
      simp [he]
    · rw [if_neg hlen, List.length_map]

/-- C10 witness: the ghost-seat conjunct of the theorem applied to a
concrete show and user collection in which the id ghost resolves to no
record. -/
theorem C10_unresolved_holder_witness :
    prepareReminderTasks
        [{ showR with occupiedSeats := ("B9", "ghost") :: showR.occupiedSeats }] usersR 0 =
      prepareReminderTasks [showR] usersR 0 :=
  (C10_unresolved_holder_no_task [showR] usersR 0 "ghost" "B9" showR [] (by decide)).2.1

end QuickShow
